import Mathlib

/-!
Shallow embedding of `docs/sphinx/conf.py` from the elasticsearch-py
repository, and proofs of the specification claims about it.

The file under verification is a Sphinx documentation-build configuration.
It is declarative except for two build-time inputs:
  * `datetime.date.today().year` (the current year at build time), and
  * `elasticsearch.__versionstr__` (the version string of the library
    being documented, obtained by importing it).
We model the build-time environment as a structure carrying those two
values, and the configuration file as a function from that environment to
a record holding every configuration value the file assigns.
-/

/-- A value accepted for an entry of `intersphinx_mapping`: the external
tool accepts either a bare base-URL string, or a two-component pair of a
base URL and an optional local inventory-file override.  The source file
uses the pair form for both of its entries, with the override absent
(`None`). -/
inductive InterTarget where
  | bare (url : String)
  | withInv (url : String) (inv : Option String)
deriving DecidableEq, Repr

/-- The build-time environment observed by `conf.py`: the current year
(`datetime.date.today().year`) and the version string of the imported
library (`elasticsearch.__versionstr__`). -/
structure BuildEnv where
  todayYear : Nat
  versionstr : String
deriving DecidableEq, Repr

/-- The configuration values assigned by `docs/sphinx/conf.py`, one field
per top-level assignment in the source file, in source order. -/
structure SphinxConfig where
  extensions : List String
  autoclass_content : String
  autodoc_typehints : String
  templates_path : List String
  source_suffix : String
  master_doc : String
  project : String
  copyright : String
  version : String
  release : String
  pygments_style : String
  html_theme : String
  html_static_path : List String
  html_css_files : List String
  intersphinx_mapping : List (String × InterTarget)
deriving DecidableEq, Repr

/-- Decimal formatting of a natural number, modelling Python's `"%d" % n`
for the non-negative integer returned by `datetime.date.today().year`. -/
def formatDecimal (n : Nat) : String := Nat.repr n

/-- The body of `docs/sphinx/conf.py`: every top-level assignment of the
source file, evaluated in the given build-time environment.  `copyright`
is `"%d, Elasticsearch B.V" % datetime.date.today().year`; `version` is
`elasticsearch.__versionstr__` and `release = version`. -/
def conf (env : BuildEnv) : SphinxConfig :=
  let version := env.versionstr
  { extensions := ["sphinx.ext.autodoc", "sphinx.ext.doctest", "sphinx.ext.intersphinx"]
    autoclass_content := "both"
    autodoc_typehints := "description"
    templates_path := ["_templates"]
    source_suffix := ".rst"
    master_doc := "index"
    project := "Python Elasticsearch client"
    copyright := formatDecimal env.todayYear ++ ", Elasticsearch B.V"
    version := version
    release := version
    pygments_style := "sphinx"
    html_theme := "sphinx_rtd_theme"
    html_static_path := ["_static"]
    html_css_files := ["css/custom.css"]
    intersphinx_mapping :=
      [("python", InterTarget.withInv "https://docs.python.org/3" none),
       ("elastic-transport",
        InterTarget.withInv "https://elastic-transport-python.readthedocs.io/en/latest" none)] }

/-- Evaluation of the configuration file including its `import elasticsearch`
line: when the library (and hence its `__versionstr__`) is unavailable at
build time the import fails and evaluation produces nothing — the file has
no error handling of its own; when it is available, evaluation succeeds
and yields every configuration value. -/
def evalConf (elasticsearchVersion : Option String) (todayYear : Nat) : Option SphinxConfig :=
  elasticsearchVersion.map (fun v => conf ⟨todayYear, v⟩)

/-- Claim C1: the configuration's `version` and `release` values both equal
the version string exposed by the documented library
(`elasticsearch.__versionstr__`), for every value that string takes at
build time. -/
theorem version_release_eq_versionstr (env : BuildEnv) :
    (conf env).version = env.versionstr ∧ (conf env).release = env.versionstr :=
  ⟨rfl, rfl⟩

/-- Claim C2: for every build date, the copyright string produced by the
configuration contains, as a substring, the decimal representation of the
current year at the moment the configuration is evaluated. -/
theorem copyright_contains_year (env : BuildEnv) :
    ∃ p q : String, (conf env).copyright = p ++ formatDecimal env.todayYear ++ q :=
  ⟨"", ", Elasticsearch B.V", by simp [conf]⟩

/-- Claim C3: `intersphinx_mapping` contains exactly two entries, the key
"python" mapped to ("https://docs.python.org/3", no inventory override)
and the key "elastic-transport" mapped to
("https://elastic-transport-python.readthedocs.io/en/latest", no inventory
override), and no other keys. -/
theorem intersphinx_mapping_exact (env : BuildEnv) :
    (conf env).intersphinx_mapping =
      [("python", InterTarget.withInv "https://docs.python.org/3" none),
       ("elastic-transport",
        InterTarget.withInv "https://elastic-transport-python.readthedocs.io/en/latest" none)] :=
  rfl

/-- Claim C4: the list of documentation-generator extensions to activate
names exactly "sphinx.ext.autodoc", "sphinx.ext.doctest" and
"sphinx.ext.intersphinx", in that order. -/
theorem extensions_exact (env : BuildEnv) :
    (conf env).extensions =
      ["sphinx.ext.autodoc", "sphinx.ext.doctest", "sphinx.ext.intersphinx"] :=
  rfl

/-- Claim C5 counterexample: evaluating the configuration under two
different build-time environments (different year, different library
version string) does not yield identical values for every configuration
key, refuting the claim that the values are fully determined by the file's
literal contents alone. -/
theorem conf_not_env_independent :
    conf ⟨2024, "8.0.0"⟩ ≠ conf ⟨2025, "9.0.0"⟩ := by
  decide

/-- Claim C5 (amended): every configuration value other than `copyright`,
`version` and `release` is identical under any two build-time
environments, while `copyright` is determined by the current year alone
and `version`/`release` by the library's version string alone. -/
theorem conf_env_dependence (e1 e2 : BuildEnv) :
    ((conf e1).extensions = (conf e2).extensions ∧
     (conf e1).autoclass_content = (conf e2).autoclass_content ∧
     (conf e1).autodoc_typehints = (conf e2).autodoc_typehints ∧
     (conf e1).templates_path = (conf e2).templates_path ∧
     (conf e1).source_suffix = (conf e2).source_suffix ∧
     (conf e1).master_doc = (conf e2).master_doc ∧
     (conf e1).project = (conf e2).project ∧
     (conf e1).pygments_style = (conf e2).pygments_style ∧
     (conf e1).html_theme = (conf e2).html_theme ∧
     (conf e1).html_static_path = (conf e2).html_static_path ∧
     (conf e1).html_css_files = (conf e2).html_css_files ∧
     (conf e1).intersphinx_mapping = (conf e2).intersphinx_mapping) ∧
    (conf e1).copyright = formatDecimal e1.todayYear ++ ", Elasticsearch B.V" ∧
    (conf e1).version = e1.versionstr ∧
    (conf e1).release = e1.versionstr :=
  ⟨⟨rfl, rfl, rfl, rfl, rfl, rfl, rfl, rfl, rfl, rfl, rfl, rfl⟩, rfl, rfl, rfl⟩

/-- Claim C6: evaluation of the configuration fails only when the imported
library version string is unavailable: when `elasticsearch.__versionstr__`
is available evaluation succeeds and yields every declared configuration
value; when it is unavailable evaluation produces nothing, the file itself
handling no error. -/
theorem evalConf_succeeds_iff_version_available :
    (∀ (v : String) (y : Nat), evalConf (some v) y = some (conf ⟨y, v⟩)) ∧
    (∀ y : Nat, evalConf none y = none) :=
  ⟨fun _ _ => rfl, fun _ => rfl⟩

/-- Claim C7: every entry of the cross-reference mapping pairs a
namespace-name key with a two-component value — a base URL string and an
optional local inventory-file override — and no entry has any other shape
(in particular, no entry is a bare URL string). -/
theorem intersphinx_entries_shape (env : BuildEnv) :
    ∀ entry ∈ (conf env).intersphinx_mapping,
      ∃ (url : String) (inv : Option String),
        entry.2 = InterTarget.withInv url inv := by
  intro entry hmem
  simp only [conf, List.mem_cons, List.mem_singleton] at hmem
  rcases hmem with h | h | h
  · exact ⟨"https://docs.python.org/3", none, by rw [h]⟩
  · exact ⟨"https://elastic-transport-python.readthedocs.io/en/latest", none, by rw [h]⟩
  · exact absurd h (by simp)

/-- Witness for claim C7 at a concrete environment and entry. -/
theorem intersphinx_entries_shape_witness :
    ("python", InterTarget.withInv "https://docs.python.org/3" none) ∈
        (conf ⟨2025, "9.1.0"⟩).intersphinx_mapping ∧
      ∃ (url : String) (inv : Option String),
        (("python", InterTarget.withInv "https://docs.python.org/3" none) :
            String × InterTarget).2 = InterTarget.withInv url inv :=
  ⟨by simp [conf],
   intersphinx_entries_shape ⟨2025, "9.1.0"⟩
     ("python", InterTarget.withInv "https://docs.python.org/3" none) (by simp [conf])⟩

/-- Claim C8: the configuration declares exactly one theme identifier,
"sphinx_rtd_theme", exactly one static-asset search path, "_static", and
exactly one extra stylesheet, "css/custom.css". -/
theorem theme_and_static_assets_exact (env : BuildEnv) :
    (conf env).html_theme = "sphinx_rtd_theme" ∧
    (conf env).html_static_path = ["_static"] ∧
    (conf env).html_css_files = ["css/custom.css"] :=
  ⟨rfl, rfl, rfl⟩

/-- Claim C9: for every current year, the copyright string is exactly the
decimal representation of that year followed by the literal text
", Elasticsearch B.V", and nothing else. -/
theorem copyright_exact (env : BuildEnv) :
    (conf env).copyright = formatDecimal env.todayYear ++ ", Elasticsearch B.V" :=
  rfl

/-- Claim C10: the configuration sets `autoclass_content` to exactly "both"
and `autodoc_typehints` to exactly "description". -/
theorem autodoc_settings_exact (env : BuildEnv) :
    (conf env).autoclass_content = "both" ∧
    (conf env).autodoc_typehints = "description" :=
  ⟨rfl, rfl⟩
